import Mathlib

/-!
Verification of the multi-tenant content synchronization engine
(`sync-service/sync_worker_multitenant.py` and
`sync-service/database/db_manager_multitenant.py`).

The development is layered like the code:
* a pure "SQL semantics" layer giving the meaning of each SQL statement
  executed by `MultiTenantDatabaseManager` against the four logical tables;
* a connection/transaction layer modelling `get_connection` (pool checkout,
  commit on success, rollback + re-raise on exception, unconditional
  checkin);
* a method layer modelling each public manager method, including its
  `try/except` fallback behaviour, with store failures injected explicitly;
* an orchestrator layer modelling `MultiTenantSyncWorker.sync_tenant_folder`
  over executions in which the store operations themselves do not raise
  (store-failure behaviour is settled separately at the method layer).

Timestamps written by the database (`CURRENT_TIMESTAMP`) are modelled as a
`Nat` supplied explicitly to each operation.  The Drive-reported
`modifiedTime` and the stored `last_updated` value take part only in the
Python string comparison `new_modified <= str(existing_modified)`
(sync_worker_multitenant.py line 176), so they are modelled as `String`
with lexicographic order, mirroring Python string comparison.
-/

namespace SyncService

/-- Status column of a `sync_data` row: `'active'`, `'deleted'` or `'error'`. -/
inductive FileStatus where
  | active
  | deleted
  | error
deriving DecidableEq, Repr

/-- One row of the `sync_data` table.  The unique key is
`(tenant_id, folder_name, file_id)` (the `ON CONFLICT` target of
`insert_sync_data`).  `data` holds the `json.dumps` of the parsed payload,
`last_synced` a database-written timestamp, and `last_updated` the stored
value that line 172 of the worker reads and compares (as a string) against
the Drive `modifiedTime`. -/
structure SyncRecord where
  tenant_id : String
  folder_name : String
  file_id : String
  file_name : String
  mime_type : String
  data : String
  html_output : Option String
  status : FileStatus
  error_message : Option String
  retry_count : Nat
  last_synced : Nat
  last_updated : Option String
deriving DecidableEq, Repr

/-- One row of the `tenants` table (the columns the code reads or writes). -/
structure Tenant where
  id : String
  tenant_key : String
  name : String
  domain : Option String
  output_path : String
  google_service_account_file : Option String
  metadata : String
  sync_enabled : Bool
  last_synced : Option Nat
deriving DecidableEq, Repr

/-- One row of the `folder_config` table; `(tenant_id, folder_name)` unique. -/
structure FolderConfig where
  tenant_id : String
  folder_name : String
  drive_folder_id : String
  enabled : Bool
  last_check : Option Nat
deriving DecidableEq, Repr

/-- One row of the append-only `sync_log` table, as written by
`log_operation`. -/
structure LogEntry where
  tenant_id : Option String
  operation : String
  folder_name : Option String
  file_name : Option String
  file_id : Option String
  status : String
  message : String
  error_details : Option String
  duration_ms : Option Nat
deriving DecidableEq, Repr

/-- The durable database state: the four logical tables. -/
structure SyncDB where
  tenants : List Tenant
  folder_configs : List FolderConfig
  records : List SyncRecord
  logs : List LogEntry
deriving DecidableEq, Repr

/-- The unique-key test of the `sync_data` table. -/
def SyncRecord.keyMatches (r : SyncRecord)
    (tenant_id folder_name file_id : String) : Bool :=
  r.tenant_id = tenant_id && r.folder_name = folder_name && r.file_id = file_id

/-- Number of `sync_data` rows carrying a given unique key. -/
def keyCount (records : List SyncRecord)
    (tenant_id folder_name file_id : String) : Nat :=
  (records.filter (fun r => r.keyMatches tenant_id folder_name file_id)).length

/-- SQL semantics of the `INSERT ... ON CONFLICT (tenant_id, folder_name,
file_id) DO UPDATE` statement of `insert_sync_data`
(db_manager_multitenant.py lines 199-214).  On conflict it overwrites
`file_name`, `data`, `html_output`, `mime_type`, sets
`last_synced = CURRENT_TIMESTAMP`, forces `status = 'active'`, clears
`error_message` and resets `retry_count = 0`; `last_updated` is not in the
`SET` list and is left unchanged.  On a fresh insert the statement lists
`status = 'active'` explicitly; the remaining columns take their schema
defaults.  Modelled from the spec: the schema file is not part of the
sources, and per the spec's idempotence law and absent→Active transition the
defaults are `error_message` null, `retry_count` 0,
`last_synced` the current timestamp, `last_updated` unset. -/
def upsertSQL (records : List SyncRecord)
    (tenant_id folder_name file_name file_id mime_type data : String)
    (html_output : Option String) (now : Nat) : List SyncRecord :=
  if records.any (fun r => r.keyMatches tenant_id folder_name file_id) then
    records.map (fun r =>
      if r.keyMatches tenant_id folder_name file_id then
        { r with
            file_name := file_name
            data := data
            html_output := html_output
            mime_type := mime_type
            last_synced := now
            status := FileStatus.active
            error_message := none
            retry_count := 0 }
      else r)
  else
    records ++ [{ tenant_id := tenant_id
                  folder_name := folder_name
                  file_id := file_id
                  file_name := file_name
                  mime_type := mime_type
                  data := data
                  html_output := html_output
                  status := FileStatus.active
                  error_message := none
                  retry_count := 0
                  last_synced := now
                  last_updated := none }]

/-- The optional tenant restriction pattern shared by `mark_file_deleted`,
`mark_file_error` and `get_files_needing_retry`: the statement gains an
`AND tenant_id = %s` clause exactly when a tenant id is passed. -/
def tenantMatches (tenant_id : Option String) (r : SyncRecord) : Bool :=
  match tenant_id with
  | some t => r.tenant_id = t
  | none => true

/-- SQL semantics of the `UPDATE` of `mark_file_deleted`
(db_manager_multitenant.py lines 237-249): sets `status = 'deleted'` and
`last_synced = CURRENT_TIMESTAMP` on every row whose `file_id` matches,
restricted to the tenant when `tenant_id` is passed.  Note the statement is
not folder-scoped. -/
def markDeletedSQL (records : List SyncRecord) (file_id : String)
    (tenant_id : Option String) (now : Nat) : List SyncRecord :=
  records.map (fun r =>
    if r.file_id = file_id && tenantMatches tenant_id r then
      { r with status := FileStatus.deleted, last_synced := now }
    else r)

/-- SQL semantics of the `UPDATE` of `mark_file_error`
(db_manager_multitenant.py lines 268-293): sets `status = 'error'`,
`error_message`, `last_synced = CURRENT_TIMESTAMP`, and increments
`retry_count` when `increment_retry` is true, on every row whose `file_id`
(and tenant, when given) matches.  An `UPDATE` touching no row is a no-op:
no row is created. -/
def markErrorSQL (records : List SyncRecord) (file_id error_message : String)
    (increment_retry : Bool) (tenant_id : Option String) (now : Nat) :
    List SyncRecord :=
  records.map (fun r =>
    if r.file_id = file_id && tenantMatches tenant_id r then
      { r with
          status := FileStatus.error
          error_message := some error_message
          retry_count := if increment_retry then r.retry_count + 1 else r.retry_count
          last_synced := now }
    else r)

/-- SQL semantics of the `SELECT` of `get_files_by_folder`
(db_manager_multitenant.py lines 311-316): all rows of one tenant and folder
in a given status.  The `ORDER BY last_updated DESC` only affects
presentation order and is not modelled. -/
def getFilesByFolderSQL (records : List SyncRecord)
    (tenant_id folder_name : String) (status : FileStatus) :
    List SyncRecord :=
  records.filter (fun r =>
    r.tenant_id = tenant_id && r.folder_name = folder_name && r.status = status)

/-- SQL semantics of the `SELECT ... WHERE file_id = %s AND tenant_id = %s`
of `get_file_by_id` with a tenant (db_manager_multitenant.py line 330)
followed by `fetchone`: the first matching row, regardless of its folder or
status. -/
def getFileByIdSQL (records : List SyncRecord)
    (file_id : String) (tenant_id : String) : Option SyncRecord :=
  records.find? (fun r => r.file_id = file_id && r.tenant_id = tenant_id)

/-- SQL semantics of the `SELECT` of `get_files_needing_retry`
(db_manager_multitenant.py lines 351-365): rows with `status = 'error'` and
`retry_count < max_retries`, restricted to the tenant when one is given.
The `ORDER BY last_synced ASC` only affects presentation order and is not
modelled. -/
def getFilesNeedingRetrySQL (records : List SyncRecord)
    (max_retries : Nat) (tenant_id : Option String) : List SyncRecord :=
  records.filter (fun r =>
    tenantMatches tenant_id r &&
    r.status = FileStatus.error && decide (r.retry_count < max_retries))

/-- A store-level exception (anything the database driver raises). -/
structure DBErr where
  msg : String
deriving DecidableEq, Repr

/-- The bounded connection pool (`ThreadedConnectionPool(min_conn, max_conn)`
built in `__init__`): how many pooled connections are checked in and how many
are checked out. -/
structure Pool where
  available : Nat
  in_use : Nat
deriving DecidableEq, Repr

/-- `self.pool.getconn()`: check one connection out. -/
def Pool.getconn (p : Pool) : Pool :=
  { available := p.available - 1, in_use := p.in_use + 1 }

/-- `self.pool.putconn(conn)`: check the connection back in. -/
def Pool.putconn (p : Pool) : Pool :=
  { available := p.available + 1, in_use := p.in_use - 1 }

/-- Connection pool plus durable (committed) database state. -/
structure StoreState where
  pool : Pool
  db : SyncDB
deriving DecidableEq, Repr

/-- Embedding of the `get_connection` context manager
(db_manager_multitenant.py lines 46-58) around a transaction body: check a
connection out, run the body, `commit` on success, `rollback` and re-raise on
any exception, then `putconn` on every exit path (the `finally` block).  The
body maps the committed state to either a new state plus a result value (its
statements are buffered on the connection and applied atomically at commit)
or the exception it raises. -/
def withConnection {α : Type} (st : StoreState)
    (body : SyncDB → Except DBErr (SyncDB × α)) :
    Except DBErr α × StoreState :=
  let checkedOut := st.pool.getconn
  match body st.db with
  | Except.ok (db', a) => (Except.ok a, { pool := checkedOut.putconn, db := db' })
  | Except.error e => (Except.error e, { pool := checkedOut.putconn, db := st.db })

/-- The `try: with self.get_connection() as conn: ... except: return fallback`
pattern shared by every public manager method other than `get_connection` and
`close`.  `fail` injects an exception raised by the underlying store
(connection checkout aside) during the body. -/
def guardMethod {α : Type} (st : StoreState) (fail : Option DBErr)
    (body : SyncDB → Except DBErr (SyncDB × α)) (fallback : α) :
    α × StoreState :=
  match withConnection st (fun db =>
      match fail with
      | some e => Except.error e
      | none => body db) with
  | (Except.ok a, st') => (a, st')
  | (Except.error _, st') => (fallback, st')

/-- `get_all_tenants` (lines 62-76): tenants, filtered to `sync_enabled` when
`enabled_only`; returns `[]` on any store exception.  The `ORDER BY
tenant_key` only affects presentation order and is not modelled. -/
def get_all_tenants (st : StoreState) (fail : Option DBErr)
    (enabled_only : Bool) : List Tenant × StoreState :=
  guardMethod st fail (fun db =>
    Except.ok (db, if enabled_only then db.tenants.filter (fun t => t.sync_enabled)
                   else db.tenants)) []

/-- `get_tenant_by_key` (lines 78-89): first row with the key, `none` when
absent or on any store exception. -/
def get_tenant_by_key (st : StoreState) (fail : Option DBErr)
    (tenant_key : String) : Option Tenant × StoreState :=
  guardMethod st fail (fun db =>
    Except.ok (db, db.tenants.find? (fun t => t.tenant_key = tenant_key))) none

/-- `get_tenant_by_id` (lines 91-102): first row with the id, `none` when
absent or on any store exception. -/
def get_tenant_by_id (st : StoreState) (fail : Option DBErr)
    (tenant_id : String) : Option Tenant × StoreState :=
  guardMethod st fail (fun db =>
    Except.ok (db, db.tenants.find? (fun t => t.id = tenant_id))) none

/-- Modelled from the spec: the stored procedure `initialize_tenant_folders`
called at db_manager_multitenant.py line 148 is defined in the database
schema, which is not among the sources.  Per spec §§2, 4.1 it creates the
tenant's default FolderConfig rows inside the same transaction; the default
folder names are a parameter here, each created enabled with no Drive folder
id assigned yet. -/
def initTenantFolders (defaultFolders : List String) (tenant_id : String) :
    List FolderConfig :=
  defaultFolders.map (fun n =>
    { tenant_id := tenant_id, folder_name := n, drive_folder_id := ""
      enabled := true, last_check := none })

/-- `create_tenant` (lines 104-155): inside one transaction, `INSERT` the
tenant row (the unique constraint on `tenant_key` raises on a duplicate,
modelled by the explicit duplicate check) and then run the folder
initialization (whose failure is injected via `folderInitFail`); on any
exception the transaction is rolled back and the method returns `None`.
`newId` stands for the database-generated UUID of `RETURNING id`; the
`sync_enabled` default of the schema is modelled as true per spec §3 (tenants
are created enabled and only later toggled). -/
def create_tenant (st : StoreState) (fail folderInitFail : Option DBErr)
    (defaultFolders : List String) (newId : String)
    (tenant_key name output_path : String)
    (domain service_account_file : Option String) (metadata : String) :
    Option String × StoreState :=
  guardMethod st fail (fun db =>
    if db.tenants.any (fun t => t.tenant_key = tenant_key) then
      Except.error { msg := "duplicate key value violates unique constraint" }
    else
      match folderInitFail with
      | some e => Except.error e
      | none =>
          Except.ok ({ db with
              tenants := db.tenants ++
                [{ id := newId, tenant_key := tenant_key, name := name
                   domain := domain, output_path := output_path
                   google_service_account_file := service_account_file
                   metadata := metadata, sync_enabled := true
                   last_synced := none }]
              folder_configs := db.folder_configs ++
                initTenantFolders defaultFolders newId },
            some newId)) none

/-- The `UPDATE tenants SET last_synced = CURRENT_TIMESTAMP` statement of
`update_tenant_sync_time` (line 162). -/
def updateTenantSyncTimeSQL (tenants : List Tenant) (tenant_id : String)
    (now : Nat) : List Tenant :=
  tenants.map (fun t =>
    if t.id = tenant_id then { t with last_synced := some now } else t)

/-- `update_tenant_sync_time` (lines 157-167): returns `False` on any store
exception, `True` otherwise. -/
def update_tenant_sync_time (st : StoreState) (fail : Option DBErr)
    (tenant_id : String) (now : Nat) : Bool × StoreState :=
  guardMethod st fail (fun db =>
    Except.ok ({ db with
      tenants := updateTenantSyncTimeSQL db.tenants tenant_id now }, true)) false

/-- `insert_sync_data` (lines 171-229): the upsert, `True` on success,
`False` on any store exception. -/
def insert_sync_data (st : StoreState) (fail : Option DBErr)
    (tenant_id folder_name file_name file_id mime_type data : String)
    (html_output : Option String) (now : Nat) : Bool × StoreState :=
  guardMethod st fail (fun db =>
    Except.ok ({ db with
      records := upsertSQL db.records tenant_id folder_name file_name file_id
        mime_type data html_output now }, true)) false

/-- `mark_file_deleted` (lines 231-254): `True` on success, `False` on any
store exception. -/
def mark_file_deleted (st : StoreState) (fail : Option DBErr)
    (file_id : String) (tenant_id : Option String) (now : Nat) :
    Bool × StoreState :=
  guardMethod st fail (fun db =>
    Except.ok ({ db with
      records := markDeletedSQL db.records file_id tenant_id now }, true)) false

/-- `mark_file_error` (lines 256-299): `True` on success, `False` on any
store exception. -/
def mark_file_error (st : StoreState) (fail : Option DBErr)
    (file_id error_message : String) (increment_retry : Bool)
    (tenant_id : Option String) (now : Nat) : Bool × StoreState :=
  guardMethod st fail (fun db =>
    Except.ok ({ db with
      records := markErrorSQL db.records file_id error_message increment_retry
        tenant_id now }, true)) false

/-- `get_files_by_folder` (lines 301-322): `[]` on any store exception. -/
def get_files_by_folder (st : StoreState) (fail : Option DBErr)
    (tenant_id folder_name : String) (status : FileStatus) :
    List SyncRecord × StoreState :=
  guardMethod st fail (fun db =>
    Except.ok (db, getFilesByFolderSQL db.records tenant_id folder_name status)) []

/-- `get_file_by_id` (lines 324-339): `none` when absent or on any store
exception. -/
def get_file_by_id (st : StoreState) (fail : Option DBErr)
    (file_id tenant_id : String) : Option SyncRecord × StoreState :=
  guardMethod st fail (fun db =>
    Except.ok (db, getFileByIdSQL db.records file_id tenant_id)) none

/-- `get_files_needing_retry` (lines 341-370): `[]` on any store exception. -/
def get_files_needing_retry (st : StoreState) (fail : Option DBErr)
    (max_retries : Nat) (tenant_id : Option String) :
    List SyncRecord × StoreState :=
  guardMethod st fail (fun db =>
    Except.ok (db, getFilesNeedingRetrySQL db.records max_retries tenant_id)) []

/-- The `SELECT` of `get_folder_configs` (lines 384-396); the `ORDER BY
folder_name` only affects presentation order and is not modelled. -/
def getFolderConfigsSQL (configs : List FolderConfig) (tenant_id : String)
    (enabled_only : Bool) : List FolderConfig :=
  configs.filter (fun c => c.tenant_id = tenant_id && (!enabled_only || c.enabled))

/-- `get_folder_configs` (lines 374-401): `[]` on any store exception. -/
def get_folder_configs (st : StoreState) (fail : Option DBErr)
    (tenant_id : String) (enabled_only : Bool) :
    List FolderConfig × StoreState :=
  guardMethod st fail (fun db =>
    Except.ok (db, getFolderConfigsSQL db.folder_configs tenant_id enabled_only)) []

/-- The `UPDATE folder_config SET last_check = CURRENT_TIMESTAMP` statement
of `update_folder_check_time` (lines 408-412). -/
def updateFolderCheckTimeSQL (configs : List FolderConfig)
    (tenant_id folder_name : String) (now : Nat) : List FolderConfig :=
  configs.map (fun c =>
    if c.tenant_id = tenant_id && c.folder_name = folder_name then
      { c with last_check := some now }
    else c)

/-- `update_folder_check_time` (lines 403-417): `False` on any store
exception. -/
def update_folder_check_time (st : StoreState) (fail : Option DBErr)
    (tenant_id folder_name : String) (now : Nat) : Bool × StoreState :=
  guardMethod st fail (fun db =>
    Except.ok ({ db with
      folder_configs := updateFolderCheckTimeSQL db.folder_configs tenant_id
        folder_name now }, true)) false

/-- `log_operation` (lines 421-457): appends one `sync_log` row; `False` on
any store exception. -/
def log_operation (st : StoreState) (fail : Option DBErr)
    (operation status message : String)
    (tenant_id folder_name file_name file_id error_details : Option String)
    (duration_ms : Option Nat) : Bool × StoreState :=
  guardMethod st fail (fun db =>
    Except.ok ({ db with
      logs := db.logs ++
        [{ tenant_id := tenant_id, operation := operation
           folder_name := folder_name, file_name := file_name
           file_id := file_id, status := status, message := message
           error_details := error_details, duration_ms := duration_ms }] },
      true)) false

/-- `close` (lines 459-463): calls `self.pool.closeall()` with no exception
handler, so an exception raised there propagates to the caller; `fail`
injects such an exception. -/
def closeManager (fail : Option DBErr) : Except DBErr Unit :=
  match fail with
  | some e => Except.error e
  | none => Except.ok ()

/-- The fields of a Drive file listing entry that `sync_tenant_folder` reads
(`id`, `name`, `mimeType`, `modifiedTime`; the size and link fields are never
consulted).  A missing or empty `modifiedTime` (which Python's
`file_metadata.get('modifiedTime')` truthiness test treats alike) is
modelled as `none`. -/
structure DriveFile where
  id : String
  name : String
  mimeType : String
  modifiedTime : Option String
deriving DecidableEq, Repr

/-- Outcome of the external parse-and-render steps for one file, as seen by
the per-file `try` block of `sync_tenant_folder` (lines 180-219):
`success data html` when `parser.parse` returned truthy data and
`generate_card` produced `html`; `nullResult` when `parser.parse` returned a
falsy value (line 185); `raised msg` when parsing or card generation raised
(line 213). -/
inductive ParseOutcome where
  | success (data : String) (html : String)
  | nullResult
  | raised (msg : String)
deriving DecidableEq, Repr

/-- Lexicographic comparison of character lists, mirroring Python's string
comparison by code point. -/
def charsLe : List Char → List Char → Bool
  | [], _ => true
  | _ :: _, [] => false
  | a :: as, b :: bs => if a < b then true else if b < a then false else charsLe as bs

/-- Python's `<=` on strings (used at line 176 of the worker for
`new_modified <= str(existing_modified)`): lexicographic by code point. -/
def pyStrLe (a b : String) : Bool := charsLe a.data b.data

/-- The change-detection test of lines 169-178: look the file up by
`get_file_by_id(file_id, tenant_id)` (any folder, any status); skip when a
record exists, both its stored `last_updated` and the reported
`modifiedTime` are truthy, and `new_modified <= str(existing_modified)`
under string comparison. -/
def fileIsSkipped (records : List SyncRecord) (tenant_id : String)
    (f : DriveFile) : Bool :=
  match getFileByIdSQL records f.id tenant_id with
  | some r =>
      match r.last_updated, f.modifiedTime with
      | some lu, some mt => pyStrLe mt lu
      | _, _ => false
  | none => false

/-- The per-file body of the listing loop of `sync_tenant_folder`
(lines 160-219), over executions in which the store operations themselves do
not raise: skip unchanged files; on a successful parse upsert the record; on
a falsy parse result call `mark_file_error` with message
`"Failed to parse file of type {mime}"`; when parsing or rendering raises
call `mark_file_error` with message `"Processing error: {e}"` (both with the
default `increment_retry=True`), and continue with the next file. -/
def processFile (tenant_id folder_name : String)
    (parse : DriveFile → ParseOutcome) (now : Nat) (db : SyncDB)
    (f : DriveFile) : SyncDB :=
  if fileIsSkipped db.records tenant_id f then db
  else
    match parse f with
    | ParseOutcome.success data html =>
        { db with records := (upsertSQL db.records tenant_id folder_name
            f.name f.id f.mimeType data (some html) now) }
    | ParseOutcome.nullResult =>
        { db with records := (markErrorSQL db.records f.id
            ("Failed to parse file of type " ++ f.mimeType) true
            (some tenant_id) now) }
    | ParseOutcome.raised msg =>
        { db with records := (markErrorSQL db.records f.id
            ("Processing error: " ++ msg) true (some tenant_id) now) }

/-- `_mark_deleted_files` (lines 284-301): snapshot the folder's Active rows
via `get_files_by_folder(..., status='active')`, then `mark_file_deleted`
each one whose `file_id` was not seen in this cycle's listing. -/
def markDeletedFiles (db : SyncDB) (tenant_id folder_name : String)
    (current_file_ids : List String) (now : Nat) : SyncDB :=
  let existing := getFilesByFolderSQL db.records tenant_id folder_name
    FileStatus.active
  existing.foldl (fun d r =>
    if r.file_id ∈ current_file_ids then d
    else { d with
      records := (markDeletedSQL d.records r.file_id (some tenant_id) now) }) db

/-- `sync_tenant_folder` (lines 114-266) over executions in which the store
operations themselves do not raise and the tenant's Drive service and HTML
generator are available (their absence is an unrelated early return).
`listing` is the outcome of the Drive `files().list` call; `_list_drive_files`
(lines 268-282) catches every exception of that call itself and returns `[]`,
so the folder-level `except HttpError` handler of lines 244-254 is
unreachable for listing failures and the cycle proceeds with an empty file
list.  The component-HTML write (`save_component_html`) touches only the
filesystem and is not part of the store state.  Returns the method's boolean
result together with the final store state: per-file processing, then
deletion by absence, then the folder `last_check` update, then one success
log row `"Synced {n} files"`. -/
def syncTenantFolder (db : SyncDB) (tenant_id folder_name drive_folder_id : String)
    (listing : Except String (List DriveFile))
    (parse : DriveFile → ParseOutcome) (now duration_ms : Nat) :
    Bool × SyncDB :=
  if drive_folder_id = "" then (false, db)
  else
    let files := match listing with
      | Except.ok fs => fs
      | Except.error _ => []
    let synced_file_ids := files.map (fun f => f.id)
    let db1 := files.foldl (processFile tenant_id folder_name parse now) db
    let db2 := markDeletedFiles db1 tenant_id folder_name synced_file_ids now
    let db3 := { db2 with folder_configs :=
      (updateFolderCheckTimeSQL db2.folder_configs tenant_id folder_name now) }
    let db4 := { db3 with logs := (db3.logs ++
      [{ tenant_id := some tenant_id, operation := "sync_folder"
         folder_name := some folder_name, file_name := none, file_id := none
         status := "success"
         message := "Synced " ++ toString files.length ++ " files"
         error_details := none, duration_ms := some duration_ms }]) }
    (true, db4)

/-- Whether the store holds an Active `sync_data` row for the unique key
`(tenant_id, folder_name, file_id)`. -/
def hasActive (records : List SyncRecord)
    (tenant_id folder_name file_id : String) : Bool :=
  records.any (fun r =>
    r.keyMatches tenant_id folder_name file_id && r.status = FileStatus.active)

/-- The rows a tenant-scoped `file_id` lookup or update can see or touch,
in store order: exactly the filter underlying `get_file_by_id`,
`mark_file_deleted` and `mark_file_error`. -/
def rowsFor (records : List SyncRecord) (file_id tenant_id : String) :
    List SyncRecord :=
  records.filter (fun r => r.file_id = file_id && r.tenant_id = tenant_id)

/-- An empty store. -/
def emptyDB : SyncDB :=
  { tenants := [], folder_configs := [], records := [], logs := [] }

/-- A sample Active content record used in concrete scenarios. -/
def sampleRecord : SyncRecord :=
  { tenant_id := "t1", folder_name := "news", file_id := "f1"
    file_name := "a.txt", mime_type := "text/plain", data := "d0"
    html_output := some "<div>a</div>", status := FileStatus.active
    error_message := none, retry_count := 0, last_synced := 0
    last_updated := some "2024-01-01 10:00:00" }

/-- A store holding exactly the one sample Active record. -/
def dbOneActive : SyncDB := { emptyDB with records := [sampleRecord] }

/-- A sample tenant row. -/
def sampleTenant : Tenant :=
  { id := "t1", tenant_key := "springfield", name := "Springfield"
    domain := none, output_path := "/out", google_service_account_file := none
    metadata := "", sync_enabled := true, last_synced := none }

/-- A store holding exactly the one sample tenant. -/
def dbOneTenant : SyncDB := { emptyDB with tenants := [sampleTenant] }

/-- A store whose only record for file `f1` is in status Deleted, with a
stored `last_updated` of `"B"`. -/
def dbOneDeleted : SyncDB :=
  { emptyDB with records :=
      [{ sampleRecord with status := FileStatus.deleted, last_updated := some "B" }] }

/-- A Drive listing entry for `f1` whose reported `modifiedTime` `"A"`
compares at or below the stored `"B"`. -/
def oldFile : DriveFile :=
  { id := "f1", name := "a.txt", mimeType := "text/plain", modifiedTime := some "A" }

/-- A Drive listing entry for `f1` whose reported `modifiedTime` is strictly
newer (under string comparison) than `sampleRecord`'s stored value. -/
def newerFile : DriveFile :=
  { id := "f1", name := "a2.txt", mimeType := "text/plain"
    modifiedTime := some "2024-09-09T09:00:00.000Z" }

/-  ===================  Theorems  =================== -/

/-- `tenantMatches` unfolded on `some`. -/
theorem tenantMatches_some (t : String) (r : SyncRecord) :
    tenantMatches (some t) r = decide (r.tenant_id = t) := rfl

/-- Returning a checked-out connection restores a non-empty pool exactly. -/
theorem putconn_getconn (p : Pool) (h : 0 < p.available) :
    p.getconn.putconn = p := by
  cases p with
  | mk a u =>
    simp [Pool.getconn, Pool.putconn] at *
    omega

/-- C9: every store operation runs its transaction through the
`get_connection` context manager: the connection pool is restored on every
exit path (no operation can leak a pooled connection), the transaction body's
state is committed exactly when the body succeeds, and on an exception the
durable state is rolled back unchanged while the exception is re-raised to
the method's own `try` handler. -/
theorem store_operation_connection_discipline {α : Type} (st : StoreState)
    (body : SyncDB → Except DBErr (SyncDB × α))
    (hpool : 0 < st.pool.available) :
    ((withConnection st body).2.pool = st.pool) ∧
    (∀ db' a, body st.db = Except.ok (db', a) →
      (withConnection st body).1 = Except.ok a ∧
      (withConnection st body).2.db = db') ∧
    (∀ e, body st.db = Except.error e →
      (withConnection st body).1 = Except.error e ∧
      (withConnection st body).2.db = st.db) := by
  refine ⟨?_, ?_, ?_⟩
  · unfold withConnection
    cases hb : body st.db <;> simp [hb, putconn_getconn st.pool hpool]
  · intro db' a hb
    unfold withConnection
    simp [hb]
  · intro e hb
    unfold withConnection
    simp [hb]

/-- Witness for C9 at a concrete store: a pool of two available connections
is intact after a successful no-op transaction. -/
theorem store_operation_connection_discipline_witness :
    (withConnection
        { pool := { available := 2, in_use := 0 }, db := emptyDB }
        (fun db => Except.ok (db, true))).2.pool
      = { available := 2, in_use := 0 } := by
  exact (store_operation_connection_discipline
    { pool := { available := 2, in_use := 0 }, db := emptyDB }
    (fun db => Except.ok (db, true)) (by decide)).1

/-- C10 counterexample: two public methods of the manager do let a store
exception reach their caller.  The `get_connection` context manager
re-raises after rollback (db_manager_multitenant.py line 56), and `close`
calls `pool.closeall()` with no handler (lines 459-463), so the claim
"every public method other than the constructor swallows all underlying
store exceptions" is false as stated. -/
theorem public_method_propagates_counterexample :
    (@withConnection Bool
        { pool := { available := 1, in_use := 0 }, db := emptyDB }
        (fun _ => Except.error { msg := "connection reset" })).1
      = Except.error { msg := "connection reset" } ∧
    closeManager (some { msg := "connection reset" })
      = Except.error { msg := "connection reset" } :=
  ⟨rfl, rfl⟩

/-- C10 (amended): every public manager method other than the constructor,
the `get_connection` context manager and `close` swallows the underlying
store exception: when the store raises, reads return `[]` or `none`
(indistinguishable from genuinely empty or missing data), writes return
`False` or `None`, and the committed state is left unchanged by the
rollback; no exception propagates (the return types carry no error case). -/
theorem public_methods_swallow_store_exceptions (st : StoreState) (e : DBErr) :
    (∀ eo, (get_all_tenants st (some e) eo).1 = [] ∧
      (get_all_tenants st (some e) eo).2.db = st.db) ∧
    (∀ k, (get_tenant_by_key st (some e) k).1 = none ∧
      (get_tenant_by_key st (some e) k).2.db = st.db) ∧
    (∀ i, (get_tenant_by_id st (some e) i).1 = none ∧
      (get_tenant_by_id st (some e) i).2.db = st.db) ∧
    (∀ ff dfl nid tk nm op dm sa md,
      (create_tenant st (some e) ff dfl nid tk nm op dm sa md).1 = none ∧
      (create_tenant st (some e) ff dfl nid tk nm op dm sa md).2.db = st.db) ∧
    (∀ tid now, (update_tenant_sync_time st (some e) tid now).1 = false ∧
      (update_tenant_sync_time st (some e) tid now).2.db = st.db) ∧
    (∀ tid fn fnm fid mt d ho now,
      (insert_sync_data st (some e) tid fn fnm fid mt d ho now).1 = false ∧
      (insert_sync_data st (some e) tid fn fnm fid mt d ho now).2.db = st.db) ∧
    (∀ fid tid now, (mark_file_deleted st (some e) fid tid now).1 = false ∧
      (mark_file_deleted st (some e) fid tid now).2.db = st.db) ∧
    (∀ fid em ir tid now,
      (mark_file_error st (some e) fid em ir tid now).1 = false ∧
      (mark_file_error st (some e) fid em ir tid now).2.db = st.db) ∧
    (∀ tid fn s, (get_files_by_folder st (some e) tid fn s).1 = [] ∧
      (get_files_by_folder st (some e) tid fn s).2.db = st.db) ∧
    (∀ fid tid, (get_file_by_id st (some e) fid tid).1 = none ∧
      (get_file_by_id st (some e) fid tid).2.db = st.db) ∧
    (∀ mr tid, (get_files_needing_retry st (some e) mr tid).1 = [] ∧
      (get_files_needing_retry st (some e) mr tid).2.db = st.db) ∧
    (∀ tid eo, (get_folder_configs st (some e) tid eo).1 = [] ∧
      (get_folder_configs st (some e) tid eo).2.db = st.db) ∧
    (∀ tid fn now, (update_folder_check_time st (some e) tid fn now).1 = false ∧
      (update_folder_check_time st (some e) tid fn now).2.db = st.db) ∧
    (∀ op s m tid fn fnm fid ed dm,
      (log_operation st (some e) op s m tid fn fnm fid ed dm).1 = false ∧
      (log_operation st (some e) op s m tid fn fnm fid ed dm).2.db = st.db) := by
  refine ⟨?_, ?_, ?_, ?_, ?_, ?_, ?_, ?_, ?_, ?_, ?_, ?_, ?_, ?_⟩ <;>
    intros <;>
    simp [get_all_tenants, get_tenant_by_key, get_tenant_by_id, create_tenant,
      update_tenant_sync_time, insert_sync_data, mark_file_deleted,
      mark_file_error, get_files_by_folder, get_file_by_id,
      get_files_needing_retry, get_folder_configs, update_folder_check_time,
      log_operation, guardMethod, withConnection]

/-- C8: tenant creation is atomic and duplicate-safe.  If the tenant key
already exists the unique constraint aborts the transaction: the method
returns `None` and the store is unchanged.  In every outcome the committed
store is either exactly the old store, or the old store with the tenant row
and all its default FolderConfig rows appended together — a tenant row
without its folder-config rows is never committed, whatever fails. -/
theorem create_tenant_atomic (st : StoreState) (fail folderInitFail : Option DBErr)
    (dfl : List String) (newId tk nm outp : String) (dm sa : Option String)
    (md : String) :
    ((st.db.tenants.any (fun t => t.tenant_key = tk)) = true →
      (create_tenant st fail folderInitFail dfl newId tk nm outp dm sa md).1 = none ∧
      (create_tenant st fail folderInitFail dfl newId tk nm outp dm sa md).2.db = st.db) ∧
    ((create_tenant st fail folderInitFail dfl newId tk nm outp dm sa md).1 = none ∧
       (create_tenant st fail folderInitFail dfl newId tk nm outp dm sa md).2.db = st.db ∨
     (create_tenant st fail folderInitFail dfl newId tk nm outp dm sa md).1 = some newId ∧
       (create_tenant st fail folderInitFail dfl newId tk nm outp dm sa md).2.db.tenants
         = st.db.tenants ++
           [{ id := newId, tenant_key := tk, name := nm, domain := dm
              output_path := outp, google_service_account_file := sa
              metadata := md, sync_enabled := true, last_synced := none }] ∧
       (create_tenant st fail folderInitFail dfl newId tk nm outp dm sa md).2.db.folder_configs
         = st.db.folder_configs ++ initTenantFolders dfl newId ∧
       (create_tenant st fail folderInitFail dfl newId tk nm outp dm sa md).2.db.records
         = st.db.records ∧
       (create_tenant st fail folderInitFail dfl newId tk nm outp dm sa md).2.db.logs
         = st.db.logs) := by
  refine ⟨?_, ?_⟩
  · intro hdup
    cases fail with
    | some e => simp [create_tenant, guardMethod, withConnection]
    | none => simp [create_tenant, guardMethod, withConnection, hdup]
  · cases fail with
    | some e => left; simp [create_tenant, guardMethod, withConnection]
    | none =>
      by_cases hdup : st.db.tenants.any (fun t => t.tenant_key = tk) = true
      · left; simp [create_tenant, guardMethod, withConnection, hdup]
      · cases folderInitFail with
        | some e =>
          left
          simp [create_tenant, guardMethod, withConnection, hdup]
        | none =>
          right
          simp [create_tenant, guardMethod, withConnection, hdup]

/-- Witness for C8: creating a tenant whose key `springfield` already exists
fails and leaves the store untouched. -/
theorem create_tenant_atomic_witness :
    ((({ pool := { available := 2, in_use := 0 }, db := dbOneTenant } :
        StoreState).db.tenants.any (fun t => t.tenant_key = "springfield")) = true) ∧
    ((create_tenant { pool := { available := 2, in_use := 0 }, db := dbOneTenant }
        none none ["news"] "t9" "springfield" "Other" "/o" none none "").1 = none ∧
     (create_tenant { pool := { available := 2, in_use := 0 }, db := dbOneTenant }
        none none ["news"] "t9" "springfield" "Other" "/o" none none "").2.db
       = dbOneTenant) :=
  ⟨by decide,
   (create_tenant_atomic { pool := { available := 2, in_use := 0 }, db := dbOneTenant }
      none none ["news"] "t9" "springfield" "Other" "/o" none none "").1 (by decide)⟩

/-- C7: `get_files_needing_retry` (called tenant-unscoped by the worker's
retry pass) returns exactly the Error rows with `retry_count` strictly below
`max_retries`; a row at or above the ceiling never appears, and the query
consults no timestamp. -/
theorem records_needing_retry_exact (st : StoreState) (max_retries : Nat)
    (r : SyncRecord) :
    r ∈ (get_files_needing_retry st none max_retries none).1 ↔
      r ∈ st.db.records ∧ r.status = FileStatus.error ∧
        r.retry_count < max_retries := by
  simp [get_files_needing_retry, guardMethod, withConnection,
    getFilesNeedingRetrySQL, List.mem_filter, tenantMatches, and_assoc]

/-- The conflict-branch overwrite of the upsert keeps the unique-key
columns. -/
theorem upsert_overwrite_keyMatches (r : SyncRecord)
    (tid fn fname fid mty dat : String) (html : Option String) (now : Nat)
    (tid' fn' fid' : String) :
    ({ r with file_name := fname, data := dat, html_output := html
              mime_type := mty, last_synced := now
              status := FileStatus.active, error_message := none
              retry_count := 0 } : SyncRecord).keyMatches tid' fn' fid'
      = r.keyMatches tid' fn' fid' := by
  simp [SyncRecord.keyMatches]

/-- C3: the upsert of `insert_sync_data` is idempotent.  Starting from a
store whose unique constraint holds for the key (at most one row), applying
it twice with identical inputs equals applying it once, exactly one row for
`(tenant_id, folder_name, file_id)` remains, and that row is Active with
`error_message` null and `retry_count` 0. -/
theorem upsert_idempotent (records : List SyncRecord)
    (tid fn fname fid mty dat : String) (html : Option String) (now : Nat)
    (hkey : keyCount records tid fn fid ≤ 1) :
    upsertSQL (upsertSQL records tid fn fname fid mty dat html now)
        tid fn fname fid mty dat html now
      = upsertSQL records tid fn fname fid mty dat html now
    ∧ keyCount (upsertSQL records tid fn fname fid mty dat html now) tid fn fid = 1
    ∧ ∀ r ∈ upsertSQL records tid fn fname fid mty dat html now,
        r.keyMatches tid fn fid = true →
        r.status = FileStatus.active ∧ r.error_message = none ∧
          r.retry_count = 0 := by
  cases hex : records.any (fun r => r.keyMatches tid fn fid) with
  | true =>
    obtain ⟨w, hw, hpw⟩ := List.any_eq_true.mp hex
    have h1 : upsertSQL records tid fn fname fid mty dat html now
        = records.map (fun r =>
            if r.keyMatches tid fn fid then
              { r with file_name := fname, data := dat, html_output := html
                       mime_type := mty, last_synced := now
                       status := FileStatus.active, error_message := none
                       retry_count := 0 }
            else r) := by
      simp [upsertSQL, hex]
    refine ⟨?_, ?_, ?_⟩
    · -- applying the conflict branch twice equals applying it once
      have hex2 : (upsertSQL records tid fn fname fid mty dat html now).any
          (fun r => r.keyMatches tid fn fid) = true := by
        rw [h1]
        refine List.any_eq_true.mpr ?_
        refine ⟨_, List.mem_map_of_mem _ hw, ?_⟩
        rw [if_pos hpw,
          upsert_overwrite_keyMatches w tid fn fname fid mty dat html now tid fn fid]
        exact hpw
      rw [h1] at hex2 ⊢
      simp only [upsertSQL, hex2, if_true, List.map_map]
      refine List.map_congr_left ?_
      intro r hr
      by_cases hp : r.keyMatches tid fn fid = true
      · have hp' := hp
        simp [SyncRecord.keyMatches] at hp'
        simp [Function.comp, hp, SyncRecord.keyMatches, hp']
      · simp [Function.comp, hp]
    · rw [h1]
      unfold keyCount
      rw [List.filter_map]
      have hcong : records.filter
          ((fun r => r.keyMatches tid fn fid) ∘ (fun r =>
            if r.keyMatches tid fn fid then
              { r with file_name := fname, data := dat, html_output := html
                       mime_type := mty, last_synced := now
                       status := FileStatus.active, error_message := none
                       retry_count := 0 }
            else r))
          = records.filter (fun r => r.keyMatches tid fn fid) := by
        refine List.filter_congr ?_
        intro r hr
        by_cases hp : r.keyMatches tid fn fid = true
        · have hp' := hp
          simp [SyncRecord.keyMatches] at hp'
          simp [Function.comp, hp, SyncRecord.keyMatches, hp']
        · simp [Function.comp, hp]
      rw [hcong, List.length_map]
      have hge : 0 < (records.filter (fun r => r.keyMatches tid fn fid)).length := by
        refine List.length_pos.mpr ?_
        intro hnil
        have hmem : w ∈ records.filter (fun r => r.keyMatches tid fn fid) :=
          List.mem_filter.mpr ⟨hw, hpw⟩
        rw [hnil] at hmem
        exact absurd hmem (List.not_mem_nil _)
      have := hkey
      unfold keyCount at this
      omega
    · intro r hr hp
      rw [h1] at hr
      obtain ⟨r0, hr0, rfl⟩ := List.mem_map.mp hr
      by_cases hp0 : r0.keyMatches tid fn fid = true
      · simp [hp0]
      · simp only [hp0, if_false] at hp ⊢
        exact absurd hp hp0
  | false =>
    have hall : ∀ r ∈ records, r.keyMatches tid fn fid = false := by
      intro r hr
      by_contra hne
      have : records.any (fun r => r.keyMatches tid fn fid) = true :=
        List.any_eq_true.mpr ⟨r, hr, by simpa using hne⟩
      rw [hex] at this
      exact absurd this (by simp)
    have h1 : upsertSQL records tid fn fname fid mty dat html now
        = records ++ [{ tenant_id := tid, folder_name := fn, file_id := fid
                        file_name := fname, mime_type := mty, data := dat
                        html_output := html, status := FileStatus.active
                        error_message := none, retry_count := 0
                        last_synced := now, last_updated := none }] := by
      simp [upsertSQL, hex]
    have hpnew : ({ tenant_id := tid, folder_name := fn, file_id := fid
                    file_name := fname, mime_type := mty, data := dat
                    html_output := html, status := FileStatus.active
                    error_message := none, retry_count := 0
                    last_synced := now, last_updated := none } :
                  SyncRecord).keyMatches tid fn fid = true := by
      simp [SyncRecord.keyMatches]
    refine ⟨?_, ?_, ?_⟩
    · have hex2 : (upsertSQL records tid fn fname fid mty dat html now).any
          (fun r => r.keyMatches tid fn fid) = true := by
        rw [h1]
        refine List.any_eq_true.mpr ?_
        exact ⟨_, by simp, hpnew⟩
      rw [h1] at hex2 ⊢
      simp only [upsertSQL, hex2, if_true, List.map_append]
      have hmapl : records.map (fun r =>
          if r.keyMatches tid fn fid then
            { r with file_name := fname, data := dat, html_output := html
                     mime_type := mty, last_synced := now
                     status := FileStatus.active, error_message := none
                     retry_count := 0 }
          else r) = records := by
        have : records.map (fun r =>
            if r.keyMatches tid fn fid then
              { r with file_name := fname, data := dat, html_output := html
                       mime_type := mty, last_synced := now
                       status := FileStatus.active, error_message := none
                       retry_count := 0 }
            else r) = records.map id := by
          refine List.map_congr_left ?_
          intro r hr
          simp [hall r hr]
        simpa using this
      rw [hmapl]
      simp [hpnew]
    · rw [h1]
      unfold keyCount
      rw [List.filter_append]
      have : records.filter (fun r => r.keyMatches tid fn fid) = [] := by
        refine List.filter_eq_nil_iff.mpr ?_
        intro r hr
        simp [hall r hr]
      rw [this]
      simp [hpnew]
    · intro r hr hp
      rw [h1] at hr
      rcases List.mem_append.mp hr with hin | hin
      · rw [hall r hin] at hp
        exact absurd hp (by simp)
      · have : r = { tenant_id := tid, folder_name := fn, file_id := fid
                     file_name := fname, mime_type := mty, data := dat
                     html_output := html, status := FileStatus.active
                     error_message := none, retry_count := 0
                     last_synced := now, last_updated := none } := by
          simpa using hin
        subst this
        exact ⟨rfl, rfl, rfl⟩

/-- Witness for C3 on an initially empty store: one Active row with
`retry_count` 0 results. -/
theorem upsert_idempotent_witness :
    keyCount ([] : List SyncRecord) "t1" "news" "f1" ≤ 1 ∧
    keyCount (upsertSQL [] "t1" "news" "a.txt" "f1" "text/plain" "d0"
        (some "<p>a</p>") 3) "t1" "news" "f1" = 1 :=
  ⟨by decide,
   (upsert_idempotent [] "t1" "news" "a.txt" "f1" "text/plain" "d0"
      (some "<p>a</p>") 3 (by decide)).2.1⟩

/-- C6 counterexample: `mark_file_deleted` is not a status-only transition.
Its `UPDATE` also sets `last_synced = CURRENT_TIMESTAMP`, so at the sample
record (whose `last_synced` is 0) a call at time 1 does not yield the
record with only its status changed. -/
theorem mark_deleted_not_status_only_counterexample :
    markDeletedSQL [sampleRecord] "f1" (some "t1") 1
      ≠ [{ sampleRecord with status := FileStatus.deleted }] := by
  decide

/-- C6 (amended): `mark_file_deleted` sets `status = Deleted` and refreshes
`last_synced` to the current time on every matched row; every other field
(file name, content type, data payload, rendered fragment, error_message,
retry_count, `last_updated`) is preserved, unmatched rows are untouched, and
no row is added or removed. -/
theorem mark_deleted_frame (records : List SyncRecord) (fid : String)
    (tid : Option String) (now : Nat) :
    (markDeletedSQL records fid tid now).length = records.length ∧
    (∀ r ∈ records, (r.file_id = fid && tenantMatches tid r) = true →
      { r with status := FileStatus.deleted, last_synced := now }
        ∈ markDeletedSQL records fid tid now) ∧
    (∀ r ∈ records, (r.file_id = fid && tenantMatches tid r) = false →
      r ∈ markDeletedSQL records fid tid now) ∧
    (∀ r' ∈ markDeletedSQL records fid tid now, ∃ r ∈ records,
      r' = r ∨ r' = { r with status := FileStatus.deleted, last_synced := now }) := by
  refine ⟨by simp [markDeletedSQL], ?_, ?_, ?_⟩
  · intro r hr hc
    refine List.mem_map.mpr ⟨r, hr, ?_⟩
    simp [hc]
  · intro r hr hc
    refine List.mem_map.mpr ⟨r, hr, ?_⟩
    simp [hc]
  · intro r' hr'
    obtain ⟨r, hr, rfl⟩ := List.mem_map.mp hr'
    refine ⟨r, hr, ?_⟩
    by_cases hc : (r.file_id = fid && tenantMatches tid r) = true
    · right
      simp [hc]
    · left
      simp [hc]

/-- Witness for the amended C6 at the sample record: the matched row
reappears with status Deleted, timestamp 1 and all other fields intact. -/
theorem mark_deleted_frame_witness :
    { sampleRecord with status := FileStatus.deleted, last_synced := 1 }
      ∈ markDeletedSQL [sampleRecord] "f1" (some "t1") 1 :=
  (mark_deleted_frame [sampleRecord] "f1" (some "t1") 1).2.1 sampleRecord
    (by simp) (by decide)

/-- C5 counterexample: the change-detection lookup ignores record status.
With the only record for `f1` in status Deleted (stored time `"B"`) and a
listing entry reporting time `"A"`, no Active record exists — so by the
claim the file must be processed — yet the cycle skips it and the store is
left unchanged, even with a parser that would succeed. -/
theorem change_detection_ignores_status_counterexample :
    processFile "t1" "news" (fun _ => ParseOutcome.success "d1" "h1") 5
        dbOneDeleted oldFile = dbOneDeleted ∧
    hasActive dbOneDeleted.records "t1" "news" "f1" = false := by
  constructor
  · decide
  · decide

/-- C5 (amended): a listed file is processed iff the tenant-scoped lookup by
`external_file_id` — which ignores both the record's status and its folder —
finds no record, or the stored `last_updated` or reported `modifiedTime` is
missing, or the reported time is strictly newer under string comparison;
when the skip test holds the store is left unchanged. -/
theorem change_detection_characterization (db : SyncDB) (tid fn : String)
    (parse : DriveFile → ParseOutcome) (now : Nat) (f : DriveFile) :
    (fileIsSkipped db.records tid f = false ↔
      getFileByIdSQL db.records f.id tid = none ∨
      ∃ r, getFileByIdSQL db.records f.id tid = some r ∧
        (r.last_updated = none ∨ f.modifiedTime = none ∨
         ∃ lu mt, r.last_updated = some lu ∧ f.modifiedTime = some mt ∧
           pyStrLe mt lu = false)) ∧
    (fileIsSkipped db.records tid f = true →
      processFile tid fn parse now db f = db) := by
  constructor
  · cases hfind : getFileByIdSQL db.records f.id tid with
    | none => simp [fileIsSkipped, hfind]
    | some r =>
      cases hlu : r.last_updated with
      | none => simp [fileIsSkipped, hfind, hlu]
      | some lu =>
        cases hmt : f.modifiedTime with
        | none => simp [fileIsSkipped, hfind, hlu, hmt]
        | some mt => simp [fileIsSkipped, hfind, hlu, hmt]
  · intro hskip
    unfold processFile
    simp [hskip]

/-- Witness for the amended C5: at the Deleted record with stored time `"B"`
and reported time `"A"` the skip test holds, and the cycle leaves the store
unchanged. -/
theorem change_detection_characterization_witness :
    processFile "t1" "news" (fun _ => ParseOutcome.nullResult) 7
      dbOneDeleted oldFile = dbOneDeleted :=
  (change_detection_characterization dbOneDeleted "t1" "news"
    (fun _ => ParseOutcome.nullResult) 7 oldFile).2 (by decide)

/-- C1 (evaluation at the failing input): one Active record, and the Drive
listing call raises.  `_list_drive_files` swallows the exception and returns
`[]`, so instead of logging a folder-scoped error and skipping the folder,
the cycle completes "successfully": the folder's Active record is marked
Deleted by the deletion-by-absence pass, exactly one log entry is written
and its status is `success` (`"Synced 0 files"`), and the method returns
True. -/
theorem listing_failure_marks_deleted_and_logs_success :
    (syncTenantFolder dbOneActive "t1" "news" "gd1"
        (Except.error "HttpError 503") (fun _ => ParseOutcome.nullResult) 5 7).1
      = true ∧
    ((syncTenantFolder dbOneActive "t1" "news" "gd1"
        (Except.error "HttpError 503") (fun _ => ParseOutcome.nullResult) 5 7).2.records.map
      (fun r => r.status)) = [FileStatus.deleted] ∧
    ((syncTenantFolder dbOneActive "t1" "news" "gd1"
        (Except.error "HttpError 503") (fun _ => ParseOutcome.nullResult) 5 7).2.logs.map
      (fun l => l.status)) = ["success"] := by
  refine ⟨?_, ?_, ?_⟩
  · decide
  · decide
  · decide

/-- C2 counterexample: a cycle that completes with a success log entry but
whose only listed file fails to parse ends with no Active record for that
listed id, so the Active set for the folder does not equal the set of listed
ids. -/
theorem deletion_law_counterexample :
    (syncTenantFolder emptyDB "t1" "news" "gd1"
        (Except.ok [{ id := "f1", name := "a.txt", mimeType := "text/plain"
                      modifiedTime := some "2024-02-02T08:00:00.000Z" }])
        (fun _ => ParseOutcome.nullResult) 5 7).1 = true ∧
    hasActive (syncTenantFolder emptyDB "t1" "news" "gd1"
        (Except.ok [{ id := "f1", name := "a.txt", mimeType := "text/plain"
                      modifiedTime := some "2024-02-02T08:00:00.000Z" }])
        (fun _ => ParseOutcome.nullResult) 5 7).2.records "t1" "news" "f1"
      = false := by
  constructor
  · decide
  · decide

/-- C4 counterexample: when a file with no pre-existing content record fails
to parse, `mark_file_error` is an `UPDATE` matching no row, so no record
becomes Error — no record exists at all after the cycle, against the claim
that the file's record is recorded as Error with retry_count incremented. -/
theorem parse_failure_creates_no_record_counterexample :
    ((syncTenantFolder emptyDB "t1" "board" "gd2"
        (Except.ok [{ id := "f2", name := "b.txt", mimeType := "text/plain"
                      modifiedTime := some "2024-03-01T09:00:00.000Z" }])
        (fun _ => ParseOutcome.raised "boom") 3 4).2.records) = [] := by
  decide

/-  ============ helper lemmas for the reconciliation-loop proofs ============ -/

/-- `any` over a filtered list folds the filter into the predicate. -/
theorem any_filter {α : Type} (p q : α → Bool) (l : List α) :
    (l.filter p).any q = l.any (fun a => p a && q a) := by
  induction l with
  | nil => rfl
  | cons a l ih =>
    by_cases h : p a = true
    · simp [List.filter_cons, h, List.any_cons, ih]
    · simp only [Bool.not_eq_true] at h
      simp [List.filter_cons, h, List.any_cons, ih]

/-- A `head?` of a list is a member of it. -/
theorem mem_of_head?_eq {α : Type} {l : List α} {a : α} (h : l.head? = some a) :
    a ∈ l := by
  cases l with
  | nil => simp at h
  | cons x xs =>
    simp at h
    simp [h]

/-- Mapping a function that fixes every row satisfying `p` and never changes
`p`-membership does not change the `p`-filter. -/
theorem filter_map_untouched {α : Type} (p : α → Bool) (g : α → α) (l : List α)
    (hpres : ∀ a, p (g a) = p a) (hfix : ∀ a, p a = true → g a = a) :
    (l.map g).filter p = l.filter p := by
  rw [List.filter_map]
  have h1 : l.filter (p ∘ g) = l.filter p :=
    List.filter_congr (fun a _ => by simp [Function.comp, hpres])
  rw [h1]
  have h2 : (l.filter p).map g = (l.filter p).map id :=
    List.map_congr_left (fun a ha => hfix a (List.mem_filter.mp ha).2)
  simpa using h2

/-- Mapping a function that never changes `p`-membership commutes with the
`p`-filter. -/
theorem filter_map_touched {α : Type} (p : α → Bool) (g : α → α) (l : List α)
    (hpres : ∀ a, p (g a) = p a) :
    (l.map g).filter p = (l.filter p).map g := by
  rw [List.filter_map]
  have h1 : l.filter (p ∘ g) = l.filter p :=
    List.filter_congr (fun a _ => by simp [Function.comp, hpres])
  rw [h1]

/-- `get_file_by_id` is the head of the tenant-scoped row view. -/
theorem getFileByIdSQL_eq_head? (records : List SyncRecord) (fid tid : String) :
    getFileByIdSQL records fid tid = (rowsFor records fid tid).head? := by
  induction records with
  | nil => rfl
  | cons r rs ih =>
    by_cases h : (r.file_id = fid && r.tenant_id = tid) = true
    · simp [getFileByIdSQL, rowsFor, List.filter_cons, h, List.find?_cons_of_pos]
    · simp only [Bool.not_eq_true] at h
      simp [getFileByIdSQL, rowsFor, List.filter_cons, h,
        List.find?_cons_of_neg, ih]

/-- `hasActive` inspects only the tenant-scoped row view of the file. -/
theorem hasActive_eq_rows (records : List SyncRecord) (tid fn fid : String) :
    hasActive records tid fn fid
      = (rowsFor records fid tid).any
          (fun r => r.folder_name = fn && r.status = FileStatus.active) := by
  unfold hasActive rowsFor
  rw [any_filter]
  congr 1
  funext r
  simp only [SyncRecord.keyMatches]
  by_cases h1 : r.file_id = fid <;> by_cases h2 : r.tenant_id = tid <;>
    by_cases h3 : r.folder_name = fn <;>
    by_cases h4 : r.status = FileStatus.active <;>
    simp [h1, h2, h3, h4]

/-- The upsert for one key leaves the row view of every other file id
unchanged (it inserts or overwrites only rows of its own key, and never
changes key columns). -/
theorem rowsFor_upsert_other (records : List SyncRecord)
    (tid fn fname fid mty dat : String) (html : Option String) (now : Nat)
    (fid' tid' : String) (hne : fid' ≠ fid) :
    rowsFor (upsertSQL records tid fn fname fid mty dat html now) fid' tid'
      = rowsFor records fid' tid' := by
  unfold upsertSQL
  by_cases hex : (records.any fun r => r.keyMatches tid fn fid) = true
  · simp only [hex, if_true]
    unfold rowsFor
    refine filter_map_untouched _ _ _ (fun r => ?_) (fun r hp => ?_)
    · by_cases hk : r.keyMatches tid fn fid = true
      · simp [hk]
      · simp [hk]
    · by_cases hk : r.keyMatches tid fn fid = true
      · simp [SyncRecord.keyMatches] at hk
        simp at hp
        exact absurd (hp.1.symm.trans hk.2) hne
      · simp [hk]
  · rw [if_neg hex]
    unfold rowsFor
    rw [List.filter_append]
    have : List.filter (fun (r : SyncRecord) => r.file_id = fid' && r.tenant_id = tid')
        [{ tenant_id := tid, folder_name := fn, file_id := fid
           file_name := fname, mime_type := mty, data := dat
           html_output := html, status := FileStatus.active
           error_message := none, retry_count := 0
           last_synced := now, last_updated := none }] = [] := by
      simp [List.filter_cons]
      intro hcontra
      exact absurd hcontra.symm hne
    rw [this, List.append_nil]

/-- `mark_file_error` leaves the row view of every other file id
unchanged. -/
theorem rowsFor_markError_other (records : List SyncRecord)
    (fid msg : String) (inc : Bool) (tid : Option String) (now : Nat)
    (fid' tid' : String) (hne : fid' ≠ fid) :
    rowsFor (markErrorSQL records fid msg inc tid now) fid' tid'
      = rowsFor records fid' tid' := by
  unfold markErrorSQL rowsFor
  refine filter_map_untouched _ _ _ (fun r => ?_) (fun r hp => ?_)
  · by_cases hk : (r.file_id = fid && tenantMatches tid r) = true
    · simp [hk]
    · simp [hk]
  · by_cases hk : (r.file_id = fid && tenantMatches tid r) = true
    · simp at hp hk
      exact absurd (hp.1.symm.trans hk.1) hne
    · simp [hk]

/-- `mark_file_deleted` leaves the row view of every other file id
unchanged. -/
theorem rowsFor_markDeleted_other (records : List SyncRecord)
    (fid : String) (tid : Option String) (now : Nat)
    (fid' tid' : String) (hne : fid' ≠ fid) :
    rowsFor (markDeletedSQL records fid tid now) fid' tid'
      = rowsFor records fid' tid' := by
  unfold markDeletedSQL rowsFor
  refine filter_map_untouched _ _ _ (fun r => ?_) (fun r hp => ?_)
  · by_cases hk : (r.file_id = fid && tenantMatches tid r) = true
    · simp [hk]
    · simp [hk]
  · by_cases hk : (r.file_id = fid && tenantMatches tid r) = true
    · simp at hp hk
      exact absurd (hp.1.symm.trans hk.1) hne
    · simp [hk]

/-- The tenant-scoped row view of the upserted key after the upsert: the
store holds an Active row for the key. -/
theorem hasActive_upsert_self (records : List SyncRecord)
    (tid fn fname fid mty dat : String) (html : Option String) (now : Nat) :
    hasActive (upsertSQL records tid fn fname fid mty dat html now)
      tid fn fid = true := by
  unfold hasActive upsertSQL
  by_cases hex : (records.any fun r => r.keyMatches tid fn fid) = true
  · rw [if_pos hex]
    obtain ⟨w, hw, hpw⟩ := List.any_eq_true.mp hex
    refine List.any_eq_true.mpr ⟨_, List.mem_map_of_mem _ hw, ?_⟩
    rw [if_pos hpw]
    have hk := upsert_overwrite_keyMatches w tid fn fname fid mty dat html now
      tid fn fid
    rw [hk, hpw]
    simp
  · rw [if_neg hex]
    refine List.any_eq_true.mpr ⟨_, List.mem_append_right _ (List.mem_singleton.mpr rfl), ?_⟩
    simp [SyncRecord.keyMatches]

/-- The tenant-scoped row view of the errored file after `mark_file_error`:
every row of that file and tenant takes status Error, the message, the
retry-count bump and the new timestamp. -/
theorem rowsFor_markError_self (records : List SyncRecord)
    (fid msg : String) (inc : Bool) (tid : String) (now : Nat) :
    rowsFor (markErrorSQL records fid msg inc (some tid) now) fid tid
      = (rowsFor records fid tid).map (fun r =>
          { r with status := FileStatus.error, error_message := some msg
                   retry_count := if inc then r.retry_count + 1 else r.retry_count
                   last_synced := now }) := by
  unfold markErrorSQL rowsFor
  rw [filter_map_touched _ _ _ (fun r => by
    by_cases hc : (r.file_id = fid && tenantMatches (some tid) r) = true <;>
      simp [hc])]
  refine List.map_congr_left (fun r hr => ?_)
  have hp := (List.mem_filter.mp hr).2
  simp at hp
  simp [tenantMatches, hp.1, hp.2]

/-- The tenant-scoped row view of the deleted file after `mark_file_deleted`:
every row of that file and tenant takes status Deleted and the new
timestamp. -/
theorem rowsFor_markDeleted_self (records : List SyncRecord)
    (fid : String) (tid : String) (now : Nat) :
    rowsFor (markDeletedSQL records fid (some tid) now) fid tid
      = (rowsFor records fid tid).map (fun r =>
          { r with status := FileStatus.deleted, last_synced := now }) := by
  unfold markDeletedSQL rowsFor
  rw [filter_map_touched _ _ _ (fun r => by
    by_cases hc : (r.file_id = fid && tenantMatches (some tid) r) = true <;>
      simp [hc])]
  refine List.map_congr_left (fun r hr => ?_)
  have hp := (List.mem_filter.mp hr).2
  simp at hp
  simp [tenantMatches, hp.1, hp.2]

/-- After `mark_file_deleted` for a file and tenant, no Active row for that
file remains in any folder of the tenant. -/
theorem hasActive_markDeleted_self (records : List SyncRecord)
    (tid fn fid : String) (now : Nat) :
    hasActive (markDeletedSQL records fid (some tid) now) tid fn fid = false := by
  rw [hasActive_eq_rows, rowsFor_markDeleted_self, List.any_map]
  refine List.any_eq_false.mpr ?_
  intro r _
  simp [Function.comp]

/-- `mark_file_deleted` of a different file id does not change whether a file
has an Active row. -/
theorem hasActive_markDeleted_other (records : List SyncRecord)
    (tid' fn' fid' fid : String) (tidOpt : Option String) (now : Nat)
    (hne : fid' ≠ fid) :
    hasActive (markDeletedSQL records fid tidOpt now) tid' fn' fid'
      = hasActive records tid' fn' fid' := by
  rw [hasActive_eq_rows, hasActive_eq_rows,
    rowsFor_markDeleted_other _ _ _ _ _ _ hne]

/-- A skipped file leaves the store unchanged (the `continue` of line 178). -/
theorem processFile_of_skip (tid fn : String) (parse : DriveFile → ParseOutcome)
    (now : Nat) (db : SyncDB) (f : DriveFile)
    (h : fileIsSkipped db.records tid f = true) :
    processFile tid fn parse now db f = db := by
  unfold processFile
  simp [h]

/-- One listing-loop step touches only the `sync_data` table. -/
theorem processFile_frame (tid fn : String) (parse : DriveFile → ParseOutcome)
    (now : Nat) (db : SyncDB) (f : DriveFile) :
    (processFile tid fn parse now db f).tenants = db.tenants ∧
    (processFile tid fn parse now db f).folder_configs = db.folder_configs ∧
    (processFile tid fn parse now db f).logs = db.logs := by
  unfold processFile
  by_cases hskip : fileIsSkipped db.records tid f = true
  · simp [hskip]
  · rw [if_neg hskip]
    cases parse f <;> simp

/-- One listing-loop step for one file leaves the row view of every other
file id unchanged. -/
theorem rowsFor_processFile_other (tid fn : String)
    (parse : DriveFile → ParseOutcome) (now : Nat) (db : SyncDB)
    (f : DriveFile) (fid' tid' : String) (hne : fid' ≠ f.id) :
    rowsFor (processFile tid fn parse now db f).records fid' tid'
      = rowsFor db.records fid' tid' := by
  unfold processFile
  by_cases hskip : fileIsSkipped db.records tid f = true
  · simp [hskip]
  · rw [if_neg hskip]
    cases parse f with
    | success d h => exact rowsFor_upsert_other _ _ _ _ _ _ _ _ _ _ _ hne
    | nullResult => exact rowsFor_markError_other _ _ _ _ _ _ _ _ hne
    | raised m => exact rowsFor_markError_other _ _ _ _ _ _ _ _ hne

/-- The change-detection outcome for a file depends only on the tenant-scoped
row view of its id. -/
theorem fileIsSkipped_congr (rs1 rs2 : List SyncRecord) (tid : String)
    (f : DriveFile) (h : rowsFor rs1 f.id tid = rowsFor rs2 f.id tid) :
    fileIsSkipped rs1 tid f = fileIsSkipped rs2 tid f := by
  unfold fileIsSkipped
  rw [getFileByIdSQL_eq_head?, getFileByIdSQL_eq_head?, h]

/-- The whole listing loop leaves the row view of any file id it does not
list unchanged. -/
theorem rowsFor_loop_other (tid fn : String) (parse : DriveFile → ParseOutcome)
    (now : Nat) (fs : List DriveFile) :
    ∀ (db : SyncDB) (fid' tid' : String), (∀ f ∈ fs, f.id ≠ fid') →
      rowsFor ((fs.foldl (processFile tid fn parse now) db)).records fid' tid'
        = rowsFor db.records fid' tid' := by
  induction fs with
  | nil => intro db fid' tid' _; rfl
  | cons f fs ih =>
    intro db fid' tid' hne
    rw [List.foldl_cons,
      ih _ _ _ (fun g hg => hne g (List.mem_cons_of_mem _ hg)),
      rowsFor_processFile_other _ _ _ _ _ _ _ _
        (Ne.symm (hne f (List.mem_cons_self _ _)))]

/-- The whole listing loop touches only the `sync_data` table. -/
theorem loop_frame (tid fn : String) (parse : DriveFile → ParseOutcome)
    (now : Nat) (fs : List DriveFile) :
    ∀ (db : SyncDB),
      ((fs.foldl (processFile tid fn parse now) db)).tenants = db.tenants ∧
      ((fs.foldl (processFile tid fn parse now) db)).folder_configs
        = db.folder_configs ∧
      ((fs.foldl (processFile tid fn parse now) db)).logs = db.logs := by
  induction fs with
  | nil => intro db; exact ⟨rfl, rfl, rfl⟩
  | cons f fs ih =>
    intro db
    rw [List.foldl_cons]
    obtain ⟨h1, h2, h3⟩ := ih (processFile tid fn parse now db f)
    obtain ⟨g1, g2, g3⟩ := processFile_frame tid fn parse now db f
    exact ⟨h1.trans g1, h2.trans g2, h3.trans g3⟩

/-- Whether a file keeps an Active row is unchanged by loop steps for other
files. -/
theorem hasActive_loop_other (tid fn : String) (parse : DriveFile → ParseOutcome)
    (now : Nat) (fs : List DriveFile) (db : SyncDB) (id : String)
    (h : id ∉ fs.map (fun f => f.id)) :
    hasActive ((fs.foldl (processFile tid fn parse now) db)).records tid fn id
      = hasActive db.records tid fn id := by
  rw [hasActive_eq_rows, hasActive_eq_rows, rowsFor_loop_other]
  intro f hf heq
  exact h (heq ▸ List.mem_map_of_mem (fun f => f.id) hf)

/-- The deletion-by-absence fold keeps the row view of every listed file id
unchanged: only unlisted ids are ever passed to `mark_file_deleted`. -/
theorem rowsFor_deletionFold_keep (tid : String) (ids : List String)
    (now : Nat) (l : List SyncRecord) :
    ∀ (db : SyncDB) (fid' tid' : String), fid' ∈ ids →
      rowsFor ((l.foldl (fun d r =>
          if r.file_id ∈ ids then d
          else { d with
            records := (markDeletedSQL d.records r.file_id (some tid) now) }) db)).records
        fid' tid'
      = rowsFor db.records fid' tid' := by
  induction l with
  | nil => intro db fid' tid' _; rfl
  | cons s ss ih =>
    intro db fid' tid' hin
    rw [List.foldl_cons]
    by_cases hmem : s.file_id ∈ ids
    · rw [if_pos hmem]
      exact ih db fid' tid' hin
    · rw [if_neg hmem]
      rw [ih _ _ _ hin]
      exact rowsFor_markDeleted_other _ _ _ _ _ _
        (fun heq => hmem (heq ▸ hin))

/-- Once a file has no Active row, the deletion-by-absence fold never revives
it. -/
theorem hasActive_deletionFold_false (tid fn : String) (ids : List String)
    (now : Nat) (l : List SyncRecord) :
    ∀ (db : SyncDB) (fid' : String),
      hasActive db.records tid fn fid' = false →
      hasActive ((l.foldl (fun d r =>
          if r.file_id ∈ ids then d
          else { d with
            records := (markDeletedSQL d.records r.file_id (some tid) now) }) db)).records
        tid fn fid' = false := by
  induction l with
  | nil => intro db fid' h; exact h
  | cons s ss ih =>
    intro db fid' h
    rw [List.foldl_cons]
    by_cases hmem : s.file_id ∈ ids
    · rw [if_pos hmem]
      exact ih db fid' h
    · rw [if_neg hmem]
      refine ih _ _ ?_
      by_cases heq : fid' = s.file_id
      · subst heq
        exact hasActive_markDeleted_self db.records tid fn s.file_id now
      · rw [hasActive_markDeleted_other db.records tid fn fid' s.file_id
          (some tid) now heq]
        exact h

/-- If the snapshot contains a row of an unlisted file id, the
deletion-by-absence fold ends with no Active row for that id. -/
theorem hasActive_deletionFold_found (tid fn : String) (ids : List String)
    (now : Nat) (l : List SyncRecord) :
    ∀ (db : SyncDB) (fid' : String), fid' ∉ ids → (∃ s ∈ l, s.file_id = fid') →
      hasActive ((l.foldl (fun d r =>
          if r.file_id ∈ ids then d
          else { d with
            records := (markDeletedSQL d.records r.file_id (some tid) now) }) db)).records
        tid fn fid' = false := by
  induction l with
  | nil =>
    intro db fid' _ hex
    simp at hex
  | cons s ss ih =>
    intro db fid' hnin hex
    rw [List.foldl_cons]
    by_cases heq : s.file_id = fid'
    · have hmem : s.file_id ∉ ids := by
        rw [heq]
        exact hnin
      rw [if_neg hmem]
      refine hasActive_deletionFold_false tid fn ids now ss _ fid' ?_
      rw [heq]
      exact hasActive_markDeleted_self db.records tid fn fid' now
    · rcases hex with ⟨w, hw, hwid⟩
      rcases List.mem_cons.mp hw with rfl | hwss
      · exact absurd hwid heq
      · by_cases hmem : s.file_id ∈ ids
        · rw [if_pos hmem]
          exact ih db fid' hnin ⟨w, hwss, hwid⟩
        · rw [if_neg hmem]
          exact ih _ fid' hnin ⟨w, hwss, hwid⟩

/-- The deletion-by-absence fold touches only the `sync_data` table. -/
theorem deletionFold_frame (tid : String) (ids : List String) (now : Nat)
    (l : List SyncRecord) :
    ∀ db : SyncDB,
      ((l.foldl (fun d r =>
          if r.file_id ∈ ids then d
          else { d with
            records := (markDeletedSQL d.records r.file_id (some tid) now) }) db)).tenants
        = db.tenants ∧
      ((l.foldl (fun d r =>
          if r.file_id ∈ ids then d
          else { d with
            records := (markDeletedSQL d.records r.file_id (some tid) now) }) db)).folder_configs
        = db.folder_configs ∧
      ((l.foldl (fun d r =>
          if r.file_id ∈ ids then d
          else { d with
            records := (markDeletedSQL d.records r.file_id (some tid) now) }) db)).logs
        = db.logs := by
  induction l with
  | nil => intro db; exact ⟨rfl, rfl, rfl⟩
  | cons s ss ih =>
    intro db
    rw [List.foldl_cons]
    by_cases hmem : s.file_id ∈ ids
    · rw [if_pos hmem]
      exact ih db
    · rw [if_neg hmem]
      exact ih _

/-- `_mark_deleted_files` keeps the row view of every listed id unchanged. -/
theorem rowsFor_markDeletedFiles_keep (db : SyncDB) (tid fn : String)
    (ids : List String) (now : Nat) (fid' tid' : String) (hin : fid' ∈ ids) :
    rowsFor (markDeletedFiles db tid fn ids now).records fid' tid'
      = rowsFor db.records fid' tid' := by
  unfold markDeletedFiles
  exact rowsFor_deletionFold_keep tid ids now _ db fid' tid' hin

/-- After `_mark_deleted_files`, no unlisted file id has an Active row in the
folder. -/
theorem hasActive_markDeletedFiles_gone (db : SyncDB) (tid fn : String)
    (ids : List String) (now : Nat) (fid' : String) (hnin : fid' ∉ ids) :
    hasActive (markDeletedFiles db tid fn ids now).records tid fn fid' = false := by
  unfold markDeletedFiles
  cases hact : hasActive db.records tid fn fid' with
  | false => exact hasActive_deletionFold_false tid fn ids now _ db fid' hact
  | true =>
    unfold hasActive at hact
    obtain ⟨r, hr, hpr⟩ := List.any_eq_true.mp hact
    simp [SyncRecord.keyMatches] at hpr
    obtain ⟨⟨⟨h1, h2⟩, h3⟩, h4⟩ := hpr
    refine hasActive_deletionFold_found tid fn ids now _ db fid' hnin
      ⟨r, ?_, h3⟩
    simp [getFilesByFolderSQL, List.mem_filter]
    tauto

/-- `_mark_deleted_files` touches only the `sync_data` table. -/
theorem markDeletedFiles_frame (db : SyncDB) (tid fn : String)
    (ids : List String) (now : Nat) :
    (markDeletedFiles db tid fn ids now).tenants = db.tenants ∧
    (markDeletedFiles db tid fn ids now).folder_configs = db.folder_configs ∧
    (markDeletedFiles db tid fn ids now).logs = db.logs := by
  unfold markDeletedFiles
  exact deletionFold_frame tid ids now _ db

/-- If the change-detection test skips a file and every tenant-scoped row of
its id lies in this folder with status Active, the file already has an
Active row. -/
theorem hasActive_of_skip (rs : List SyncRecord) (tid fn : String)
    (f : DriveFile) (hs : fileIsSkipped rs tid f = true)
    (hrows : ∀ r ∈ rowsFor rs f.id tid,
      r.folder_name = fn ∧ r.status = FileStatus.active) :
    hasActive rs tid fn f.id = true := by
  unfold fileIsSkipped at hs
  cases hfind : getFileByIdSQL rs f.id tid with
  | none =>
    rw [hfind] at hs
    simp at hs
  | some r =>
    have hmem : r ∈ rowsFor rs f.id tid := by
      refine mem_of_head?_eq (l := rowsFor rs f.id tid) ?_
      rw [← getFileByIdSQL_eq_head?, hfind]
    obtain ⟨hfold, hstat⟩ := hrows r hmem
    have hrs := (List.mem_filter.mp hmem).1
    have hpf := (List.mem_filter.mp hmem).2
    simp at hpf
    unfold hasActive
    refine List.any_eq_true.mpr ⟨r, hrs, ?_⟩
    simp [SyncRecord.keyMatches, hpf.1, hpf.2, hfold, hstat]

/-- Per-file success: a listed file that parses successfully (at whatever
point of the loop it is reached) ends the loop with an Active row, provided
the listing ids are duplicate-free and every pre-existing tenant-scoped row
of its id is this folder's Active row. -/
theorem loop_hasActive_success (tid fn : String)
    (parse : DriveFile → ParseOutcome) (now : Nat) (fs : List DriveFile) :
    ∀ (db : SyncDB) (g : DriveFile), g ∈ fs →
      (fs.map (fun f => f.id)).Nodup →
      (∃ d h, parse g = ParseOutcome.success d h) →
      (∀ r ∈ rowsFor db.records g.id tid,
        r.folder_name = fn ∧ r.status = FileStatus.active) →
      hasActive ((fs.foldl (processFile tid fn parse now) db)).records
        tid fn g.id = true := by
  induction fs with
  | nil =>
    intro db g hg
    exact absurd hg (List.not_mem_nil g)
  | cons f fs ih =>
    intro db g hg hnd hparse hrows
    rw [List.foldl_cons]
    rw [List.map_cons] at hnd
    rcases List.mem_cons.mp hg with rfl | hgtail
    · have hstep : hasActive (processFile tid fn parse now db g).records
          tid fn g.id = true := by
        unfold processFile
        by_cases hskip : fileIsSkipped db.records tid g = true
        · rw [if_pos hskip]
          exact hasActive_of_skip db.records tid fn g hskip hrows
        · rw [if_neg hskip]
          obtain ⟨d, h, hp⟩ := hparse
          rw [hp]
          exact hasActive_upsert_self _ _ _ _ _ _ _ _ _
      rw [hasActive_loop_other tid fn parse now fs _ g.id
        (List.nodup_cons.mp hnd).1]
      exact hstep
    · have hne : f.id ≠ g.id := by
        intro heq
        exact (List.nodup_cons.mp hnd).1
          (heq ▸ List.mem_map_of_mem (fun f => f.id) hgtail)
      refine ih _ g hgtail (List.nodup_cons.mp hnd).2 hparse ?_
      rw [rowsFor_processFile_other tid fn parse now db f g.id tid
        (Ne.symm hne)]
      exact hrows

/-- Per-file failure: a listed file that is not skipped and whose parse
returns nothing or raises ends the loop with every tenant-scoped row of its
id marked Error — message recorded, `retry_count` incremented by one — and
no new row, provided the listing ids are duplicate-free. -/
theorem loop_rowsFor_failure (tid fn : String)
    (parse : DriveFile → ParseOutcome) (now : Nat) (fs : List DriveFile) :
    ∀ (db : SyncDB) (f0 : DriveFile) (msg : String), f0 ∈ fs →
      (fs.map (fun f => f.id)).Nodup →
      fileIsSkipped db.records tid f0 = false →
      ((parse f0 = ParseOutcome.nullResult ∧
          msg = "Failed to parse file of type " ++ f0.mimeType) ∨
       (∃ e, parse f0 = ParseOutcome.raised e ∧ msg = "Processing error: " ++ e)) →
      rowsFor ((fs.foldl (processFile tid fn parse now) db)).records f0.id tid
        = (rowsFor db.records f0.id tid).map (fun r =>
            { r with status := FileStatus.error, error_message := some msg
                     retry_count := r.retry_count + 1, last_synced := now }) := by
  induction fs with
  | nil =>
    intro db f0 msg h
    exact absurd h (List.not_mem_nil f0)
  | cons f fs ih =>
    intro db f0 msg hmem hnd hskip houtc
    rw [List.foldl_cons]
    rw [List.map_cons] at hnd
    rcases List.mem_cons.mp hmem with rfl | htail
    · have hstep : rowsFor (processFile tid fn parse now db f0).records f0.id tid
          = (rowsFor db.records f0.id tid).map (fun r =>
              { r with status := FileStatus.error, error_message := some msg
                       retry_count := r.retry_count + 1, last_synced := now }) := by
        unfold processFile
        rw [if_neg (by simp [hskip])]
        rcases houtc with ⟨hp, hm⟩ | ⟨e, hp, hm⟩
        · subst hm
          rw [hp, rowsFor_markError_self]
          simp
        · subst hm
          rw [hp, rowsFor_markError_self]
          simp
      have hnot : ∀ g ∈ fs, g.id ≠ f0.id := by
        intro g hg heq
        exact (List.nodup_cons.mp hnd).1
          (heq ▸ List.mem_map_of_mem (fun f => f.id) hg)
      rw [rowsFor_loop_other tid fn parse now fs _ f0.id tid hnot]
      exact hstep
    · have hne : f.id ≠ f0.id := by
        intro heq
        exact (List.nodup_cons.mp hnd).1
          (heq ▸ List.mem_map_of_mem (fun f => f.id) htail)
      have hrows : rowsFor (processFile tid fn parse now db f).records f0.id tid
          = rowsFor db.records f0.id tid :=
        rowsFor_processFile_other tid fn parse now db f f0.id tid (Ne.symm hne)
      rw [ih _ f0 msg htail (List.nodup_cons.mp hnd).2
        (by rw [fileIsSkipped_congr _ db.records tid f0 hrows]; exact hskip)
        houtc, hrows]

/-- The shape of a completed folder cycle whose listing succeeded: returns
True, the records are those of the listing loop followed by the
deletion-by-absence pass, and exactly one log row is appended — a success
entry reporting the listing size. -/
theorem syncTenantFolder_decomp (db : SyncDB) (tid fn gdid : String)
    (fs : List DriveFile) (parse : DriveFile → ParseOutcome) (now dur : Nat)
    (hgd : gdid ≠ "") :
    (syncTenantFolder db tid fn gdid (Except.ok fs) parse now dur).1 = true ∧
    (syncTenantFolder db tid fn gdid (Except.ok fs) parse now dur).2.records
      = (markDeletedFiles (fs.foldl (processFile tid fn parse now) db) tid fn
          (fs.map (fun f => f.id)) now).records ∧
    (syncTenantFolder db tid fn gdid (Except.ok fs) parse now dur).2.logs
      = db.logs ++
        [{ tenant_id := some tid, operation := "sync_folder"
           folder_name := some fn, file_name := none, file_id := none
           status := "success"
           message := "Synced " ++ toString fs.length ++ " files"
           error_details := none, duration_ms := some dur }] := by
  unfold syncTenantFolder
  rw [if_neg hgd]
  refine ⟨rfl, rfl, ?_⟩
  have h1 := (markDeletedFiles_frame
    (fs.foldl (processFile tid fn parse now) db) tid fn
    (fs.map (fun f => f.id)) now).2.2
  have h2 := (loop_frame tid fn parse now fs db).2.2
  simp only [h1, h2]

/-- C2 (amended): after a folder cycle whose listing call succeeds with
duplicate-free ids, in which every listed file parses successfully (and no
store operation fails), and where any pre-existing tenant-scoped record of a
listed id is this folder's record in status Active, the set of Active
records for the (tenant, folder) equals exactly the set of listed external
file ids; the cycle reports success. -/
theorem deletion_law_amended (db : SyncDB) (tid fn gdid : String)
    (fs : List DriveFile) (parse : DriveFile → ParseOutcome) (now dur : Nat)
    (hgd : gdid ≠ "")
    (hnd : (fs.map (fun f => f.id)).Nodup)
    (hsucc : ∀ f ∈ fs, ∃ d h, parse f = ParseOutcome.success d h)
    (hpre : ∀ f ∈ fs, ∀ r ∈ rowsFor db.records f.id tid,
      r.folder_name = fn ∧ r.status = FileStatus.active) :
    (syncTenantFolder db tid fn gdid (Except.ok fs) parse now dur).1 = true ∧
    ∀ id, hasActive
        (syncTenantFolder db tid fn gdid (Except.ok fs) parse now dur).2.records
        tid fn id = true
      ↔ id ∈ fs.map (fun f => f.id) := by
  obtain ⟨hret, hrec, _⟩ :=
    syncTenantFolder_decomp db tid fn gdid fs parse now dur hgd
  refine ⟨hret, ?_⟩
  intro id
  rw [hrec]
  by_cases hid : id ∈ fs.map (fun f => f.id)
  · simp only [hid, iff_true]
    obtain ⟨g, hg, hgid⟩ := List.mem_map.mp hid
    rw [hasActive_eq_rows,
      rowsFor_markDeletedFiles_keep _ _ _ _ _ _ _ hid, ← hasActive_eq_rows]
    subst hgid
    exact loop_hasActive_success tid fn parse now fs db g hg hnd
      (hsucc g hg) (hpre g hg)
  · simp only [hid, iff_false]
    rw [hasActive_markDeletedFiles_gone _ _ _ _ _ _ hid]
    simp

/-- Witness for the amended C2: an initially empty store and a one-file
listing that parses successfully end the cycle with an Active record for the
listed id. -/
theorem deletion_law_amended_witness :
    hasActive (syncTenantFolder emptyDB "t1" "news" "g7"
        (Except.ok [{ id := "f3", name := "c.txt", mimeType := "text/plain"
                      modifiedTime := some "2024-04-01T00:00:00.000Z" }])
        (fun _ => ParseOutcome.success "d3" "h3") 2 9).2.records
      "t1" "news" "f3" = true := by
  refine ((deletion_law_amended emptyDB "t1" "news" "g7"
      [{ id := "f3", name := "c.txt", mimeType := "text/plain"
         modifiedTime := some "2024-04-01T00:00:00.000Z" }]
      (fun _ => ParseOutcome.success "d3" "h3") 2 9
      (by decide) (by simp)
      (fun f _ => ⟨"d3", "h3", rfl⟩)
      (fun f _ r hr => by simp [rowsFor, emptyDB] at hr)).2 "f3").mpr ?_
  simp

/-- C4 (amended): when a listed, non-skipped file's parse returns nothing or
raises, the orchestrator calls `mark_file_error`: every tenant-scoped record
of that file id (if any) becomes Error with the failure message and
`retry_count` incremented by one, but when no record exists for the file no
record is created; the folder is never aborted — the other listed files (all
parsing successfully) still end with Active records, the cycle returns True,
and the folder's single log entry still reports success (assuming
duplicate-free listing ids and no store failures). -/
theorem parse_failure_isolated (db : SyncDB) (tid fn gdid : String)
    (fs : List DriveFile) (parse : DriveFile → ParseOutcome) (now dur : Nat)
    (f0 : DriveFile) (msg : String)
    (hgd : gdid ≠ "")
    (hnd : (fs.map (fun f => f.id)).Nodup)
    (hf0 : f0 ∈ fs)
    (hskip : fileIsSkipped db.records tid f0 = false)
    (houtc : (parse f0 = ParseOutcome.nullResult ∧
        msg = "Failed to parse file of type " ++ f0.mimeType) ∨
      (∃ e, parse f0 = ParseOutcome.raised e ∧ msg = "Processing error: " ++ e))
    (hsucc : ∀ f ∈ fs, f.id ≠ f0.id → ∃ d h, parse f = ParseOutcome.success d h)
    (hpre : ∀ f ∈ fs, f.id ≠ f0.id → ∀ r ∈ rowsFor db.records f.id tid,
      r.folder_name = fn ∧ r.status = FileStatus.active) :
    (syncTenantFolder db tid fn gdid (Except.ok fs) parse now dur).1 = true ∧
    (syncTenantFolder db tid fn gdid (Except.ok fs) parse now dur).2.logs
      = db.logs ++
        [{ tenant_id := some tid, operation := "sync_folder"
           folder_name := some fn, file_name := none, file_id := none
           status := "success"
           message := "Synced " ++ toString fs.length ++ " files"
           error_details := none, duration_ms := some dur }] ∧
    rowsFor (syncTenantFolder db tid fn gdid (Except.ok fs) parse now dur).2.records
        f0.id tid
      = (rowsFor db.records f0.id tid).map (fun r =>
          { r with status := FileStatus.error, error_message := some msg
                   retry_count := r.retry_count + 1, last_synced := now }) ∧
    ∀ g ∈ fs, g.id ≠ f0.id →
      hasActive
        (syncTenantFolder db tid fn gdid (Except.ok fs) parse now dur).2.records
        tid fn g.id = true := by
  obtain ⟨hret, hrec, hlog⟩ :=
    syncTenantFolder_decomp db tid fn gdid fs parse now dur hgd
  refine ⟨hret, hlog, ?_, ?_⟩
  · rw [hrec]
    have hin : f0.id ∈ fs.map (fun f => f.id) :=
      List.mem_map_of_mem (fun f => f.id) hf0
    rw [rowsFor_markDeletedFiles_keep _ _ _ _ _ _ _ hin]
    exact loop_rowsFor_failure tid fn parse now fs db f0 msg hf0 hnd hskip houtc
  · intro g hg hne
    rw [hrec]
    have hin : g.id ∈ fs.map (fun f => f.id) :=
      List.mem_map_of_mem (fun f => f.id) hg
    rw [hasActive_eq_rows,
      rowsFor_markDeletedFiles_keep _ _ _ _ _ _ _ hin, ← hasActive_eq_rows]
    exact loop_hasActive_success tid fn parse now fs db g hg hnd
      (hsucc g hg hne) (hpre g hg hne)

/-- Witness for the amended C4: the sample Active record, listed with a
strictly newer modification time but failing to parse, ends the cycle as the
single Error row with the parse-failure message and `retry_count` 1. -/
theorem parse_failure_isolated_witness :
    rowsFor (syncTenantFolder dbOneActive "t1" "news" "g9"
        (Except.ok [newerFile]) (fun _ => ParseOutcome.nullResult) 6 3).2.records
      "f1" "t1"
      = [{ sampleRecord with
            status := FileStatus.error,
            error_message := some "Failed to parse file of type text/plain",
            retry_count := 1, last_synced := 6 }] := by
  refine ((parse_failure_isolated dbOneActive "t1" "news" "g9" [newerFile]
      (fun _ => ParseOutcome.nullResult) 6 3 newerFile
      "Failed to parse file of type text/plain"
      (by decide) (by simp) (by simp)
      (by decide)
      (Or.inl ⟨rfl, by decide⟩)
      (fun f hf hne => by
        simp [List.mem_singleton] at hf
        subst hf
        exact absurd rfl hne)
      (fun f hf hne _ _ => by
        simp [List.mem_singleton] at hf
        subst hf
        exact absurd rfl hne)).2.2.1).trans ?_
  decide

end SyncService
